import Mathlib

set_option autoImplicit false

/-
Verification of the conversation-completion core of the roamer travel
planner (src/agents/conversation_manager.py, src/agents/base_agent.py).

Shallow embedding conventions:
- A JSON-object reply of `call_openai_api` is modelled by a structure whose
  fields are `Option`s; `none` stands for a key that is absent or bound to
  JSON null (the two are interchangeable everywhere the embedded code looks:
  null-valued keys are stripped before use or read through falsy checks).
- An `error : Option String` field models the presence of an "error" key in
  the reply dict, which `call_openai_api` produces instead of raising.
- Each pipeline stage's backend reply is supplied by a `TurnEnv` oracle, the
  way the repository's tests mock `call_openai_api`; an `Except.error`
  entry models a Python exception raised while that stage runs.
- Python truthiness: a string is falsy iff empty, a number iff zero, a list
  iff empty; `dict.get` with a default is `Option.getD`.
- The stage functions below are the bodies of the source methods given a
  backend reply — the configuration the repository's tests exercise by
  mocking `call_openai_api`. On the unmocked source the stage calls
  themselves raise: every `ConversationManager` stage passes
  `use_json_response=True`, a keyword `BaseAgent.call_openai_api` does not
  accept, so Python raises `TypeError` at the call site before any reply
  exists. That call layer is embedded separately further below
  (`invoke_call_openai_api`, `parse_travel_details_call`, `realTurnEnv`).
-/

/-- Raw JSON-object reply driving `parse_travel_details`
(PARSE_TRAVEL_DETAILS_PROMPT answer: each trip field explicitly mentioned
or null). -/
structure RawExtraction where
  error : Option String := none
  location : Option String := none
  duration : Option Int := none
  interests : Option (List String) := none
  budget : Option String := none
  travel_type : Option String := none
deriving Repr, DecidableEq

/-- The sparse trip-field dictionary (`TripFieldSet`): only keys with
non-null values are semantically present. -/
structure Fields where
  location : Option String := none
  duration : Option Int := none
  interests : Option (List String) := none
  budget : Option String := none
  travel_type : Option String := none
deriving Repr, DecidableEq

/-- Result of `parse_travel_details`: either the cleaned field dict or the
`{"error": msg}` dict (which carries no other keys). -/
inductive ParseResult where
  | ok (fields : Fields)
  | err (msg : String)
deriving Repr, DecidableEq

/-- Python truthiness of `dict.get(key)` for a string-valued key:
`None` and `""` are falsy. -/
def truthyStr : Option String → Bool
  | none => false
  | some s => !(s == "")

/-- The body of `ConversationManager.parse_travel_details`, given the
backend reply (reachable only under the tests' mocked `call_openai_api`;
the unmocked call raises first, see `parse_travel_details_call`). Checks
the "error" key, strips null values, then requires a truthy location. -/
def parse_travel_details (raw : RawExtraction) : ParseResult :=
  if raw.error.isSome then
    ParseResult.err "Failed to parse travel details"
  else
    let cleaned_details : Fields :=
      { location := raw.location, duration := raw.duration,
        interests := raw.interests, budget := raw.budget,
        travel_type := raw.travel_type }
    if !(truthyStr cleaned_details.location) then
      ParseResult.err "Location is required"
    else
      ParseResult.ok cleaned_details

/-- Raw JSON-object reply driving `analyze_missing_info`
(ANALYZE_MISSING_PROMPT answer). `unclear` maps field names to ambiguity
descriptions. -/
structure RawAnalysis where
  error : Option String := none
  provided : Option (List String) := none
  missing : Option (List String) := none
  unclear : Option (List (String × String)) := none
  confidence : Option Int := none
deriving Repr, DecidableEq

/-- `AnalysisResult` as returned by `analyze_missing_info`: every key
present. -/
structure Analysis where
  provided : List String
  missing : List String
  unclear : List (String × String)
  confidence : Int
deriving Repr, DecidableEq

/-- The body of `ConversationManager.analyze_missing_info`, given the
backend reply (reachable only under the tests' mocked `call_openai_api`;
the unmocked call raises first, see `analyze_missing_info_call`). On an
"error" key, substitutes the fixed fallback; otherwise fills each absent
key with its empty/zero default (`dict.setdefault`). -/
def analyze_missing_info (raw : RawAnalysis) : Analysis :=
  if raw.error.isSome then
    { provided := [], missing := ["location", "duration", "interests"],
      unclear := [], confidence := 0 }
  else
    { provided := raw.provided.getD [], missing := raw.missing.getD [],
      unclear := raw.unclear.getD [], confidence := raw.confidence.getD 0 }

/-- The whitespace set of Python `str.strip()` (CPython Unicode
whitespace: 0x09–0x0D, 0x1C–0x1F, space, NEL, NBSP, Ogham space mark, the
Unicode space separators, and the line/paragraph separators). -/
def pyIsSpace (c : Char) : Bool :=
  decide ((0x09 ≤ c.toNat ∧ c.toNat ≤ 0x0d) ∨ c.toNat = 0x20 ∨
    (0x1c ≤ c.toNat ∧ c.toNat ≤ 0x1f) ∨ c.toNat = 0x85 ∨ c.toNat = 0xa0 ∨
    c.toNat = 0x1680 ∨ (0x2000 ≤ c.toNat ∧ c.toNat ≤ 0x200a) ∨
    c.toNat = 0x2028 ∨ c.toNat = 0x2029 ∨ c.toNat = 0x202f ∨
    c.toNat = 0x205f ∨ c.toNat = 0x3000)

/-- Python `str.strip()`: drop leading and trailing whitespace (a
structural definition, so that concrete calls evaluate inside proofs). -/
def pyStrip (s : String) : String :=
  String.mk (((s.data.dropWhile pyIsSpace).reverse.dropWhile
    pyIsSpace).reverse)

/-- Raw JSON-object reply driving `generate_followup_question`
(the `{"question": ...}` dict). -/
structure RawFollowup where
  error : Option String := none
  question : Option String := none
deriving Repr, DecidableEq

/-- The body of `ConversationManager.generate_followup_question`, given
the backend reply (with a nonempty missing list it is reachable only under
the tests' mocked `call_openai_api`; the unmocked call raises first, see
`generate_followup_question_call`). The function's prompt (known fields,
missing list, already-asked history) reaches the backend only through the
oracle reply `raw`, so the returned value depends on `raw` and on
`analysis.missing` alone. Returns `""` when nothing is missing; otherwise
the stripped question, falling back to the fixed string on an "error" key
or an empty/whitespace-only question. -/
def generate_followup_question (raw : RawFollowup) (analysis : Analysis) : String :=
  if analysis.missing == [] then ""
  else if raw.error.isSome then "Could you tell me more about your trip?"
  else
    let question := pyStrip (raw.question.getD "")
    if question == "" then "Could you tell me more about your trip?"
    else question

set_option linter.unusedVariables false in
/-- `ConversationManager.should_continue_planning` (the Gate): location,
then duration, then interests, each read with Python truthiness; the
`analysis` argument is accepted but never consulted. -/
def should_continue_planning (parsed_details : Fields) (analysis : Analysis) :
    Bool × String :=
  if !(truthyStr parsed_details.location) then
    (false, "We need to know where you want to go.")
  else if parsed_details.duration.getD 0 == 0 then
    (false, "We need to know how long you'll be staying.")
  else if parsed_details.interests.getD [] == [] then
    (false, "We need to know what interests you to personalize your trip.")
  else
    (true, "")

/-- One `{field, value}` entry of `conversation_history`. -/
structure HistoryEntry where
  field : String
  value : String
deriving Repr, DecidableEq

/-- The mutable state of a `ConversationManager`: `conversation_history`
and the accumulated `parsed_details` (both empty at construction). -/
structure ConversationManager where
  conversation_history : List HistoryEntry := []
  parsed_details : Fields := {}
deriving Repr, DecidableEq

/-- A freshly constructed manager (`__init__`): empty history, empty
accumulated fields — the GATHERING state of the session. -/
def ConversationManager.init : ConversationManager := {}

/-- `ConversationManager.add_to_history`. -/
def ConversationManager.add_to_history (self : ConversationManager)
    (field : String) (value : String) : ConversationManager :=
  { self with conversation_history :=
      self.conversation_history ++ [{ field := field, value := value }] }

/-- `ConversationManager.reset`: clear history and accumulated fields. -/
def ConversationManager.reset (self : ConversationManager) : ConversationManager :=
  { self with conversation_history := [], parsed_details := {} }

/-- Viewing the dict held in a `ParseResult` through `dict.get` on field
keys: the `{"error": msg}` dict has none of them. -/
def ParseResult.asFields : ParseResult → Fields
  | ParseResult.ok f => f
  | ParseResult.err _ => {}

/-- The stage outcomes consumed by one call to
`validate_and_get_followup`, one per stage, in the order the stages run.
`Except.error msg` models a Python exception raised while that stage runs
(caught only at the `validate_and_get_followup` boundary); `Except.ok`
carries the reply dict of `call_openai_api` the way the repository's
tests inject one by mocking that method (the mocked call converts API
failures into an "error" key rather than raising). On the unmocked source
every stage call raises the `use_json_response` `TypeError`, so only the
all-error environments built by `realTurnEnv` correspond to real
executions. -/
structure TurnEnv where
  extraction : Except String RawExtraction
  analysis : Except String RawAnalysis
  followup : Except String RawFollowup
deriving Repr

/-- The three dict shapes `validate_and_get_followup` returns:
`needsMoreInfo` is `{"success": False, "needs_more_info": True, details,
followup_question, missing_fields, confidence}`, `ready` is
`{"success": True, "needs_more_info": False, details, confidence}`, and
`failed` is the except-branch dict `{"success": False, "error": ...,
"needs_more_info": True}`. -/
inductive TurnResult where
  | needsMoreInfo (details : ParseResult) (followup_question : String)
      (missing_fields : List String) (confidence : Int)
  | ready (details : Fields) (confidence : Int)
  | failed (error : String)
deriving Repr, DecidableEq

/-- Whether a turn result is the except-branch `failed` dict. -/
def TurnResult.isFailed : TurnResult → Bool
  | TurnResult.failed _ => true
  | _ => false

/-- `ConversationManager.validate_and_get_followup`: the per-turn pipeline
(parse → analyze → gate → compose), returning the result dict and the
updated manager. A raised exception at any stage reaches the surrounding
`try`/`except`, which returns the `failed` dict and leaves the manager
untouched. On the gate's refusal the question (possibly `""`) is appended
to history and the emitted `followup_question` substitutes the secondary
default for an empty question; on the gate's success `parsed_details` holds
a field dict (the gate refuses the error dict), and it overwrites the
accumulated fields. -/
def ConversationManager.validate_and_get_followup (self : ConversationManager)
    (env : TurnEnv) : TurnResult × ConversationManager :=
  match env.extraction with
  | Except.error e => (TurnResult.failed ("Error validating your request: " ++ e), self)
  | Except.ok rawE =>
    let details := parse_travel_details rawE
    match env.analysis with
    | Except.error e => (TurnResult.failed ("Error validating your request: " ++ e), self)
    | Except.ok rawA =>
      let analysis := analyze_missing_info rawA
      let sc := should_continue_planning details.asFields analysis
      if !sc.1 then
        match env.followup with
        | Except.error e =>
            (TurnResult.failed ("Error validating your request: " ++ e), self)
        | Except.ok rawF =>
          let followup := generate_followup_question rawF analysis
          ( TurnResult.needsMoreInfo details
              (if followup == "" then "Could you provide more details about your trip?"
               else followup)
              analysis.missing analysis.confidence,
            self.add_to_history "question" followup )
      else
        ( TurnResult.ready details.asFields analysis.confidence,
          { self with parsed_details := details.asFields } )

example :
    parse_travel_details { location := some "Paris" } =
      ParseResult.ok { location := some "Paris" } := by decide

example :
    parse_travel_details { duration := some 3, interests := some ["museums"] } =
      ParseResult.err "Location is required" := by decide

example :
    should_continue_planning { location := some "Paris" }
      { provided := [], missing := [], unclear := [], confidence := 0 } =
      (false, "We need to know how long you'll be staying.") := by decide

/-- The Gate as the specification words it, for comparison with
`should_continue_planning`: location present and non-empty, else duration
present and truthy (non-zero), else interests present and a non-empty
sequence, in that fixed short-circuit order, the first failing check
determining the reason; all three hold gives `(true, "")`. -/
def gate_reference (fields : Fields) : Bool × String :=
  if fields.location = none ∨ fields.location = some "" then
    (false, "We need to know where you want to go.")
  else if fields.duration = none ∨ fields.duration = some 0 then
    (false, "We need to know how long you'll be staying.")
  else if fields.interests = none ∨ fields.interests = some [] then
    (false, "We need to know what interests you to personalize your trip.")
  else
    (true, "")

set_option linter.unreachableTactic false in
set_option linter.unusedTactic false in
lemma should_continue_planning_eq_reference (f : Fields) (a : Analysis) :
    should_continue_planning f a = gate_reference f := by
  obtain ⟨loc, dur, ints, b, t⟩ := f
  cases loc <;> cases dur <;> cases ints <;>
    simp [should_continue_planning, gate_reference, truthyStr] <;>
    split_ifs <;> simp_all

lemma gate_reference_reason_empty_iff (f : Fields) :
    (gate_reference f).2 = "" ↔ (gate_reference f).1 = true := by
  unfold gate_reference
  split_ifs <;> simp

/-- C2: the Gate equals the reference decision procedure (location, then
duration, then interests, fixed short-circuit order, first failing check
giving the reason, `(true, "")` when all hold); a field set lacking
location is refused regardless of the rest; with location held truthy, a
field set missing both duration and interests gets the duration reason;
the reason is empty iff it proceeds; and the analysis argument, confidence
included, never changes the decision. -/
theorem C2_gate_matches_reference (f : Fields) (a a2 : Analysis) :
    should_continue_planning f a = gate_reference f
    ∧ should_continue_planning f a = should_continue_planning f a2
    ∧ ((should_continue_planning f a).2 = "" ↔ (should_continue_planning f a).1 = true)
    ∧ (should_continue_planning { f with location := none } a).1 = false
    ∧ (truthyStr f.location = true → f.duration = none → f.interests = none →
        should_continue_planning f a =
          (false, "We need to know how long you'll be staying.")) := by
  refine ⟨should_continue_planning_eq_reference f a, ?_, ?_, ?_, ?_⟩
  · rw [should_continue_planning_eq_reference f a,
      should_continue_planning_eq_reference f a2]
  · rw [should_continue_planning_eq_reference f a]
    exact gate_reference_reason_empty_iff f
  · simp [should_continue_planning, truthyStr]
  · intro hloc hdur hints
    simp [should_continue_planning, hloc, hdur, hints]

/-- C2 witness: the Gate at a concrete field set and two concrete
analyses, with the duration-first conjunct discharged at a field set that
has a location but neither duration nor interests. -/
theorem C2_gate_matches_reference_witness :
    should_continue_planning { location := some "Paris" }
        { provided := [], missing := [], unclear := [], confidence := 0 } =
      (false, "We need to know how long you'll be staying.") := by
  exact (C2_gate_matches_reference { location := some "Paris" }
    { provided := [], missing := [], unclear := [], confidence := 0 }
    { provided := [], missing := [], unclear := [], confidence := 95 }).2.2.2.2
    (by decide) rfl rfl

/-- C9: after `reset`, whatever the prior history and accumulated fields,
the history is empty, the accumulated field set is empty, and the manager
is exactly the freshly constructed (GATHERING) state. -/
theorem C9_reset_clears_state (s : ConversationManager) :
    s.reset.conversation_history = []
    ∧ s.reset.parsed_details = ({} : Fields)
    ∧ s.reset = ConversationManager.init :=
  ⟨rfl, rfl, rfl⟩

/-- C7: the per-turn pipeline is atomic on error. Whenever the turn
returns the `failed` dict, the manager — history and accumulated fields —
is exactly as before the call; and an exception raised at the extraction,
analysis, or composition stage is converted at the `step` boundary into
the `failed` dict carrying the error string, with the manager untouched. -/
theorem C7_step_atomic_on_error (env : TurnEnv) (s : ConversationManager) :
    (∀ e, (s.validate_and_get_followup env).1 = TurnResult.failed e →
      (s.validate_and_get_followup env).2 = s)
    ∧ (∀ ex, env.extraction = Except.error ex →
        s.validate_and_get_followup env =
          (TurnResult.failed ("Error validating your request: " ++ ex), s))
    ∧ (∀ rawE ex, env.extraction = Except.ok rawE →
        env.analysis = Except.error ex →
        s.validate_and_get_followup env =
          (TurnResult.failed ("Error validating your request: " ++ ex), s))
    ∧ (∀ rawE rawA ex, env.extraction = Except.ok rawE →
        env.analysis = Except.ok rawA →
        (should_continue_planning (parse_travel_details rawE).asFields
          (analyze_missing_info rawA)).1 = false →
        env.followup = Except.error ex →
        s.validate_and_get_followup env =
          (TurnResult.failed ("Error validating your request: " ++ ex), s)) := by
  obtain ⟨ex, an, fo⟩ := env
  refine ⟨?_, ?_, ?_, ?_⟩
  · intro e h
    cases ex with
    | error e2 => rfl
    | ok rawE =>
      cases an with
      | error e2 => rfl
      | ok rawA =>
        cases hg : (should_continue_planning (parse_travel_details rawE).asFields
            (analyze_missing_info rawA)).1 with
        | true => simp [ConversationManager.validate_and_get_followup, hg] at h
        | false =>
          cases fo with
          | error e2 => simp [ConversationManager.validate_and_get_followup, hg]
          | ok rawF => simp [ConversationManager.validate_and_get_followup, hg] at h
  · intro ex2 h
    cases h
    rfl
  · intro rawE ex2 hE hA
    cases hE
    cases hA
    rfl
  · intro rawE rawA ex2 hE hA hg hF
    cases hE
    cases hA
    cases hF
    simp [ConversationManager.validate_and_get_followup, hg]

/-- A turn whose extraction stage raises (`Exception("Test error")`, as in
the repository's own test of the except branch). -/
def envRaise : TurnEnv :=
  { extraction := Except.error "Test error",
    analysis := Except.ok {}, followup := Except.ok {} }

/-- C7 witness: a raised extraction error at a concrete turn becomes the
`failed` dict and the manager is returned untouched. -/
theorem C7_step_atomic_on_error_witness :
    ConversationManager.init.validate_and_get_followup envRaise =
      (TurnResult.failed "Error validating your request: Test error",
       ConversationManager.init) := by
  have h := (C7_step_atomic_on_error envRaise ConversationManager.init).2.1
    "Test error" rfl
  exact h

/-
The call layer, as wired in the source. `BaseAgent.call_openai_api`
(src/agents/base_agent.py) declares the keyword parameters system_prompt,
user_prompt, model, temperature and max_tokens, while every
`ConversationManager` stage also passes `use_json_response=True`
(src/agents/conversation_manager.py, the three `call_openai_api` calls).
Python rejects an unexpected keyword with a `TypeError` at the call site,
before the callee's body runs, so on the unmocked source no stage ever
receives a backend reply; the repository's tests bypass this by replacing
`call_openai_api` with a mock.
-/

/-- The keyword parameters `BaseAgent.call_openai_api` accepts. -/
def call_openai_api_params : List String :=
  ["system_prompt", "user_prompt", "model", "temperature", "max_tokens"]

/-- The keyword arguments each `ConversationManager` stage passes to
`call_openai_api`. -/
def conversation_manager_call_kwargs : List String :=
  ["system_prompt", "user_prompt", "temperature", "max_tokens",
   "use_json_response"]

/-- Python keyword-call semantics: a keyword the callee's signature does
not accept raises `TypeError` at the call site; otherwise the callee runs
and its reply (here supplied by the oracle) comes back. -/
def invoke_call_openai_api {α : Type} (kwargs : List String) (reply : α) :
    Except String α :=
  match kwargs.find? (fun k => !(call_openai_api_params.contains k)) with
  | some k =>
      Except.error ("call_openai_api() got an unexpected keyword argument '"
        ++ k ++ "'")
  | none => Except.ok reply

/-- The `TypeError` message every `ConversationManager` stage call raises
on the unmocked source. -/
def use_json_response_type_error : String :=
  "call_openai_api() got an unexpected keyword argument 'use_json_response'"

lemma invoke_manager_call_raises {α : Type} (reply : α) :
    invoke_call_openai_api conversation_manager_call_kwargs reply =
      Except.error use_json_response_type_error := rfl

/-- `parse_travel_details` as actually invoked on the unmocked source: the
backend call raises before the body can process any reply. -/
def parse_travel_details_call (reply : RawExtraction) :
    Except String ParseResult :=
  Except.map parse_travel_details
    (invoke_call_openai_api conversation_manager_call_kwargs reply)

/-- `analyze_missing_info` as actually invoked on the unmocked source. -/
def analyze_missing_info_call (reply : RawAnalysis) :
    Except String Analysis :=
  Except.map analyze_missing_info
    (invoke_call_openai_api conversation_manager_call_kwargs reply)

/-- `generate_followup_question` as actually invoked on the unmocked
source: with nothing missing it returns `""` before any backend call;
otherwise the call raises. -/
def generate_followup_question_call (reply : RawFollowup)
    (analysis : Analysis) : Except String String :=
  if analysis.missing == [] then Except.ok ""
  else
    Except.map (fun r => generate_followup_question r analysis)
      (invoke_call_openai_api conversation_manager_call_kwargs reply)

/-- The `TurnEnv` one real (unmocked) turn produces: each stage's entry is
the outcome of its `call_openai_api` invocation, whatever reply the
backend would have given. The extraction entry is an error, so
`validate_and_get_followup` fails on it at once and the later entries are
never consulted (in particular the followup entry need not account for
the Composer's missing-empty early return, which happens before its
call). -/
def realTurnEnv (re : RawExtraction) (ra : RawAnalysis) (rf : RawFollowup) :
    TurnEnv :=
  { extraction := invoke_call_openai_api conversation_manager_call_kwargs re,
    analysis := invoke_call_openai_api conversation_manager_call_kwargs ra,
    followup := invoke_call_openai_api conversation_manager_call_kwargs rf }

set_option linter.unusedVariables false in
/-- C1: on the source as wired, a turn whose extraction reply would state
no (or an empty) location — the MissingLocationError case — returns the
`failed` (except-branch) dict and leaves the manager, the accumulated
field set included, untouched: the extraction stage raises `TypeError` at
its `call_openai_api` call site and the `step` boundary converts it. -/
theorem C1_missing_location_returns_failed (re : RawExtraction)
    (ra : RawAnalysis) (rf : RawFollowup) (s : ConversationManager)
    (hne : re.error = none)
    (hloc : re.location = none ∨ re.location = some "") :
    (s.validate_and_get_followup (realTurnEnv re ra rf)).1 =
      TurnResult.failed
        ("Error validating your request: " ++ use_json_response_type_error)
    ∧ (s.validate_and_get_followup (realTurnEnv re ra rf)).2 = s :=
  ⟨rfl, rfl⟩

/-- C1 witness: the no-location turn of the spec's Scenario C, against a
fresh manager. -/
theorem C1_missing_location_returns_failed_witness :
    (ConversationManager.init.validate_and_get_followup
        (realTurnEnv { duration := some 3, interests := some ["museums"] }
          { missing := some ["location"] } {})).1 =
      TurnResult.failed
        ("Error validating your request: " ++ use_json_response_type_error)
    ∧ (ConversationManager.init.validate_and_get_followup
        (realTurnEnv { duration := some 3, interests := some ["museums"] }
          { missing := some ["location"] } {})).2 = ConversationManager.init :=
  C1_missing_location_returns_failed
    { duration := some 3, interests := some ["museums"] }
    { missing := some ["location"] } {} ConversationManager.init
    rfl (Or.inl rfl)

/-- C3: the claim's Ready/overwrite path is unreachable on the source as
wired: extraction never succeeds — its backend call raises `TypeError` for
every reply — so every turn returns the `failed` dict and never the
`ready` variant. -/
theorem C3_ready_unreachable (re : RawExtraction) (ra : RawAnalysis)
    (rf : RawFollowup) (s : ConversationManager) :
    parse_travel_details_call re = Except.error use_json_response_type_error
    ∧ ∀ f c, (s.validate_and_get_followup (realTurnEnv re ra rf)).1 ≠
        TurnResult.ready f c := by
  refine ⟨rfl, ?_⟩
  intro f c h
  rw [show (s.validate_and_get_followup (realTurnEnv re ra rf)).1 =
      TurnResult.failed
        ("Error validating your request: " ++ use_json_response_type_error)
      from rfl] at h
  exact TurnResult.noConfusion h

/-- C3 witness: the complete-information turn of the spec's Scenario B
still fails and in particular is not `ready`. -/
theorem C3_ready_unreachable_witness :
    parse_travel_details_call
      { location := some "Barcelona", duration := some 3,
        interests := some ["hiking"] } =
      Except.error use_json_response_type_error
    ∧ (ConversationManager.init.validate_and_get_followup
        (realTurnEnv
          { location := some "Barcelona", duration := some 3,
            interests := some ["hiking"] }
          { missing := some [], confidence := some 90 } {})).1 ≠
        TurnResult.ready
          { location := some "Barcelona", duration := some 3,
            interests := some ["hiking"] } 90 := by
  have h := C3_ready_unreachable
    { location := some "Barcelona", duration := some 3,
      interests := some ["hiking"] }
    { missing := some [], confidence := some 90 } {} ConversationManager.init
  exact ⟨h.1, h.2 _ _⟩

/-- C4: contrary to the claim, the Analyzer always fails outward on the
source as wired: whatever reply the backend would give, the
`analyze_missing_info` call raises `TypeError` before the fallback or the
`setdefault` code can run. -/
theorem C4_analyzer_always_raises (reply : RawAnalysis) :
    analyze_missing_info_call reply =
      Except.error use_json_response_type_error := rfl

/-- C5: contrary to the claim, on the source as wired the Composer returns
the empty string when nothing is missing (that early return precedes the
backend call) and otherwise raises `TypeError` — the fixed fallback string
is dead code. -/
theorem C5_composer_raises (reply : RawFollowup) (p : List String)
    (m : String) (rest : List String) (u : List (String × String))
    (c : Int) :
    generate_followup_question_call reply
      { provided := p, missing := m :: rest, unclear := u, confidence := c } =
      Except.error use_json_response_type_error
    ∧ generate_followup_question_call reply
      { provided := p, missing := [], unclear := u, confidence := c } =
      Except.ok "" :=
  ⟨rfl, rfl⟩

/-- C6: the extractor's null-stripping, location check, and typed errors
never execute on the source as wired: whatever the raw payload would be,
the backend call raises `TypeError` first, so extraction produces neither
a field set nor a returned error dict. -/
theorem C6_extractor_always_raises (reply : RawExtraction) :
    parse_travel_details_call reply =
      Except.error use_json_response_type_error := rfl

/-- C8: on the source as wired, extraction never returns any field set —
every `parse_travel_details` call raises `TypeError` whatever the raw
payload — so in particular it never returns a field set whose interests
key maps to an empty list. -/
theorem C8_no_extracted_field_set (reply : RawExtraction) :
    parse_travel_details_call reply =
      Except.error use_json_response_type_error
    ∧ ∀ f : Fields, parse_travel_details_call reply ≠
        Except.ok (ParseResult.ok f) := by
  refine ⟨rfl, ?_⟩
  intro f h
  rw [show parse_travel_details_call reply =
      Except.error use_json_response_type_error from rfl] at h
  exact Except.noConfusion h

/-- C8 witness: at the raw payload with an explicitly empty interests
list, extraction raises and in particular returns no field set retaining
that empty list. -/
theorem C8_no_extracted_field_set_witness :
    parse_travel_details_call { location := some "Paris", interests := some [] } =
      Except.error use_json_response_type_error
    ∧ parse_travel_details_call { location := some "Paris", interests := some [] } ≠
      Except.ok (ParseResult.ok
        { location := some "Paris", interests := some [] }) := by
  have h := C8_no_extracted_field_set
    { location := some "Paris", interests := some [] }
  exact ⟨h.1, h.2 { location := some "Paris", interests := some [] }⟩

/-- C10: `needsMoreInfo` is unreachable on the source as wired — every
turn fails at the extraction stage's `TypeError` — so the secondary
default-question substitution is dead code and `step` never emits a
follow-up question, empty or not. -/
theorem C10_needs_more_info_unreachable (re : RawExtraction)
    (ra : RawAnalysis) (rf : RawFollowup) (s : ConversationManager) :
    (s.validate_and_get_followup (realTurnEnv re ra rf)).1 =
      TurnResult.failed
        ("Error validating your request: " ++ use_json_response_type_error)
    ∧ ∀ d q m c, (s.validate_and_get_followup (realTurnEnv re ra rf)).1 ≠
        TurnResult.needsMoreInfo d q m c := by
  refine ⟨rfl, ?_⟩
  intro d q m c h
  rw [show (s.validate_and_get_followup (realTurnEnv re ra rf)).1 =
      TurnResult.failed
        ("Error validating your request: " ++ use_json_response_type_error)
      from rfl] at h
  exact TurnResult.noConfusion h

/-- C10 witness: the gate-refusing turn of the spec's Scenario A fails and
in particular does not return the `needsMoreInfo` dict with the secondary
default question. -/
theorem C10_needs_more_info_unreachable_witness :
    (ConversationManager.init.validate_and_get_followup
        (realTurnEnv { location := some "Paris" }
          { missing := some [] } {})).1 =
      TurnResult.failed
        ("Error validating your request: " ++ use_json_response_type_error)
    ∧ (ConversationManager.init.validate_and_get_followup
        (realTurnEnv { location := some "Paris" }
          { missing := some [] } {})).1 ≠
        TurnResult.needsMoreInfo (ParseResult.ok { location := some "Paris" })
          "Could you provide more details about your trip?" [] 0 := by
  have h := C10_needs_more_info_unreachable { location := some "Paris" }
    { missing := some [] } {} ConversationManager.init
  exact ⟨h.1, h.2 _ _ _ _⟩
